import Mathlib

/-!
Verification development for the n8n service-manager helper application.

The embedding follows the two Python modules of the repository:
`src/service-manager/sheet_downloader.py` (URL resolution, direct download,
browser-assisted fallback watcher) and `src/service-manager/main.py`
(docker guard, export/import of the n8n data directory as a zip archive,
UI error-message table).

Byte strings are `List Nat`; path and zip-entry names are `List Char`
(the character sequence of the Python string).  External effects
(the single HTTP GET, the browser launch, the wall clock, the `docker ps`
output) are passed in as explicit parameters, and the effects a call
performs (requests issued, files written, callback invocations) are
returned in a result record, so the theorems can speak about them.
-/

abbrev Bytes := List Nat

abbrev Name := List Char

/-- Substring test used by the Python `in` operator on strings
(`"n8n-custom" in result.stdout`, `"text/html" in content_type`). -/
def containsSubstr (pat s : String) : Bool := decide (pat.toList <:+: s.toList)

/- ------------------------------------------------------------------
sheet_downloader.py
------------------------------------------------------------------ -/

/-- Characters matched by the character class `[a-zA-Z0-9-_]` of the
spreadsheet-link pattern in `get_google_sheet_download_link`. -/
def isIdChar (c : Char) : Bool := c.isAlphanum || c == '-' || c == '_'

/-- The literal part of the pattern
`https://docs\.google\.com/spreadsheets/d/([a-zA-Z0-9-_]+)`. -/
def sheetLinkLiteral : Name := "https://docs.google.com/spreadsheets/d/".toList

/-- `re.search` of the spreadsheet-link pattern: the leftmost occurrence of
the literal part followed by at least one id character; the captured group
is the maximal (greedy) id-character run after the literal. -/
def findSheetId : Name → Option Name
  | [] => none
  | c :: rest =>
    if sheetLinkLiteral.isPrefixOf (c :: rest) then
      let run := ((c :: rest).drop sheetLinkLiteral.length).takeWhile isIdChar
      if run.isEmpty then findSheetId rest else some run
    else findSheetId rest

/-- `get_google_sheet_download_link`: extract the file id and build the
export URL; `none` models the `ValueError` raised when the pattern does
not match. -/
def get_google_sheet_download_link (url : String) : Option String :=
  match findSheetId url.toList with
  | none => none
  | some fileId =>
    some ("https://docs.google.com/spreadsheets/d/" ++ String.mk fileId
      ++ "/export?format=xlsx")

/-- Outcome of the single `requests.get` in `download_sheet`: a response,
or one of the exceptions the surrounding handlers catch. -/
inductive HttpOutcome where
  | ok (status : Nat) (contentType : String) (body : Bytes)
  | connError
  | timeout
  | otherError
  deriving DecidableEq

/-- Python exception-class fact: `requests.ConnectionError` and
`requests.Timeout` are both subclasses of `requests.RequestException`,
so both are caught by an `except requests.RequestException` clause. -/
def isRequestException : HttpOutcome → Bool
  | .connError => true
  | .timeout => true
  | _ => false

/-- Whether the outcome is a `requests.Timeout`. -/
def isTimeoutExc : HttpOutcome → Bool
  | .timeout => true
  | _ => false

/-- The `except` chain of `download_sheet`, in source order:
`requests.RequestException` (code -4) is tried before `requests.Timeout`
(code -5), and a bare `Exception` (code -6) comes last.  The first
matching handler wins, exactly as in Python. -/
def excCode (e : HttpOutcome) : Int :=
  if isRequestException e then -4
  else if isTimeoutExc e then -5
  else -6

/-- `get_app_downloads_folder()`: the local download-staging directory
`n8n-files/downloads` relative to the project root. -/
def appDownloadsFolder : String := "n8n-files/downloads"

/-- The timestamped staging path `get_app_downloads_folder() / f"sheet_{t}.xlsx"`
written in the success branch of `download_sheet`; `t` stands for the
`time.time()` value. -/
def stagedPath (t : Nat) : Name :=
  (appDownloadsFolder ++ "/sheet_" ++ toString t ++ ".xlsx").toList

/-- Observable result of one `download_sheet` call: the returned pair
(status code, thread-or-None — `threadReturned` is true when the second
component is not `None`) together with the effects performed: HTTP GETs
issued, file written to the staging directory, callback invocations,
whether a baseline was captured and a browser launch attempted. -/
structure DownloadResult where
  status : Int
  threadReturned : Bool
  requestsMade : List String
  fileWritten : Option (Name × Bytes)
  callbackCalls : List Name
  baselineCaptured : Bool
  browserOpenAttempted : Bool
  deriving DecidableEq

/-- `download_sheet(url, callback)`.  `http` is the network: the outcome of
`requests.get` on a given URL.  `openOk` is the result of `open_browser`
(an external effect), `t` the current `time.time()` value used to name the
staged file. -/
def download_sheet (url : String) (http : String → HttpOutcome)
    (openOk : Bool) (t : Nat) : DownloadResult :=
  match get_google_sheet_download_link url with
  | none =>
    -- ValueError from the resolver: return -1, None before any request
    ⟨-1, false, [], none, [], false, false⟩
  | some download_url =>
    match http download_url with
    | .ok status contentType body =>
      let is_unexpected_content :=
        containsSubstr "text/html" contentType
          || containsSubstr "application/json" contentType
      if status == 401 || is_unexpected_content then
        -- authentication fallback: baseline, thread, open_browser
        if openOk then
          ⟨1, true, [download_url], none, [], true, true⟩
        else
          ⟨-2, false, [download_url], none, [], true, true⟩
      else if status == 200 then
        -- write response.content to the staging file and fire the callback
        ⟨0, false, [download_url], some (stagedPath t, body), [stagedPath t],
          false, false⟩
      else
        ⟨-3, false, [download_url], none, [], false, false⟩
    | e => ⟨excCode e, false, [download_url], none, [], false, false⟩

/-- The `error_messages` table of `ServiceManagerGUI.download_from_sheets`
in `main.py`, mapping negative status codes to user-facing messages. -/
def error_messages (code : Int) : Option String :=
  if code == -1 then some "Invalid Google Sheets URL"
  else if code == -2 then some "Failed to open browser for authentication"
  else if code == -3 then some "HTTP error during download"
  else if code == -4 then some "Network error during download"
  else if code == -5 then some "Timeout during download"
  else none

/- ------------------------------------------------------------------
The fallback watcher `_watch_for_download`
------------------------------------------------------------------ -/

/-- One watch execution of `_watch_for_download`, abstracted over the finite
sequence `obs` of successive `get_latest_xlsx` observations made before the
timeout elapses (the loop polls every 3 seconds and the timeout bounds the
number of polls, so the sequence is finite; the end of the list is the
timeout).  Returns the list of callback invocations, in order: the loop
fires the callback and returns as soon as the observed latest file differs
from the baseline and is not `None`; if the observation differs but is
`None` the loop keeps polling; at the end of the list the watcher stops
silently (`callback(None)` is commented out in the source). -/
def watchRun (baseline : Option Name) : List (Option Name) → List Name
  | [] => []
  | current :: rest =>
    if current ≠ baseline then
      match current with
      | some f => [f]
      | none => watchRun baseline rest
    else watchRun baseline rest

/- ------------------------------------------------------------------
main.py: docker guard and export / import of the n8n data directory
------------------------------------------------------------------ -/

/-- `is_docker_running`: `"n8n-custom" in result.stdout` over the output of
`docker ps --format ...`; `none` models the exception branch (subprocess
failure), which returns `False`. -/
def is_docker_running (psOutput : Option String) : Bool :=
  match psOutput with
  | none => false
  | some s => containsSubstr "n8n-custom" s

/-- The file name `.first_run_done` excluded from export. -/
def firstRunMarker : Name := ".first_run_done".toList

/-- The reserved `nodes` path component excluded from export. -/
def nodesComponent : Name := "nodes".toList

/-- The zip-entry root `n8n-data/` under which exported data files are
archived (`Path("n8n-data") / file_path.relative_to(n8n_data_dir)`) and
which import strips again (`member[len("n8n-data/"):]`). -/
def dataRoot : Name := "n8n-data/".toList

/-- The literal `.env` zip-entry name. -/
def envEntryName : Name := ".env".toList

/-- `Path.parts` of a relative path: its components, split on `/`. -/
def pathParts (p : Name) : List Name := p.splitOn '/'

/-- `Path.name`: the final component of a path. -/
def pathBasename (p : Name) : Name := (pathParts p).getLastD []

/-- The file filter of `export_n8n_data`: keep a data-directory file unless
its name is `.first_run_done` or `nodes` is among the components of its
path relative to the data directory. -/
def exportIncluded (p : Name) : Bool :=
  (pathBasename p != firstRunMarker) && !((pathParts p).contains nodesComponent)

/-- State of the persisted n8n data: the data-directory files (relative
path, byte contents) and the optional `.env` file contents. -/
structure FsState where
  dataDir : List (Name × Bytes)
  envFile : Option Bytes
  deriving DecidableEq

/-- The archive `export_n8n_data` writes: every kept data file under the
`n8n-data/` root, then the `.env` entry when the environment file exists. -/
def buildArchive (files : List (Name × Bytes)) (env : Option Bytes) :
    List (Name × Bytes) :=
  files.map (fun fb => (dataRoot ++ fb.1, fb.2))
    ++ (match env with | some e => [(envEntryName, e)] | none => [])

/-- `export_n8n_data()`: refuse while the container is running, fail when
the data directory is missing or no files are found, otherwise write the
timestamped archive.  The returned pair is (success, archive written);
`none` in the second component means no archive file was created. -/
def export_n8n_data (psOutput : Option String) (dataDirPresent : Bool)
    (st : FsState) : Bool × Option (List (Name × Bytes)) :=
  if is_docker_running psOutput then (false, none)
  else if !dataDirPresent then (false, none)
  else
    let all_files := st.dataDir.filter (fun fb => exportIncluded fb.1)
    let total_files := all_files.length + (if st.envFile.isSome then 1 else 0)
    if total_files == 0 then (false, none)
    else (true, some (buildArchive all_files st.envFile))

/-- Writing a file: overwrite the entry at that path when present,
otherwise create it. -/
def store_write (store : List (Name × Bytes)) (p : Name) (b : Bytes) :
    List (Name × Bytes) :=
  if store.any (fun e => e.1 == p) then
    store.map (fun e => if e.1 == p then (p, b) else e)
  else store ++ [(p, b)]

/-- Processing of one zip member inside the extraction loop of
`import_n8n_data`: a member under `n8n-data/` is extracted to the data
directory at its stripped relative path (a member ending in `/` only
creates a directory, writing no file); the literal member `.env` is
written to the environment-file location; every other member is skipped. -/
def importMember (st : FsState) (m : Name × Bytes) : FsState :=
  if dataRoot.isPrefixOf m.1 then
    if m.1.getLast? == some '/' then st
    else { st with dataDir := store_write st.dataDir (m.1.drop dataRoot.length) m.2 }
  else if m.1 == envEntryName then { st with envFile := some m.2 }
  else st

/-- The zip file chosen for import, as `import_n8n_data` classifies it:
missing (`archive_path.exists()` false), not a well-formed zip
(`zipfile.is_zipfile` false), or a zip with its member list
(name, contents) in `namelist()` order. -/
inductive ImportFile where
  | missing
  | notZip
  | zip (members : List (Name × Bytes))
  deriving DecidableEq

/-- `import_n8n_data(archive_path)` acting on the destination state `st`:
refuse while the container is running, reject a missing or malformed file
(leaving `st` untouched), otherwise extract every member in order.  The
returned pair is (success, resulting destination state). -/
def import_n8n_data (psOutput : Option String) (file : ImportFile)
    (st : FsState) : Bool × FsState :=
  if is_docker_running psOutput then (false, st)
  else
    match file with
    | .missing => (false, st)
    | .notZip => (false, st)
    | .zip members => (true, members.foldl importMember st)

/- ------------------------------------------------------------------
Theorems
------------------------------------------------------------------ -/

/-- C2: for every input string in which the spreadsheet-link pattern does
not match, `download_sheet` returns the Invalid-URL code -1 with no thread,
issues no HTTP request, writes no file and fires no callback. -/
theorem invalid_url_fails_without_request (url : String)
    (http : String → HttpOutcome) (openOk : Bool) (t : Nat)
    (h : findSheetId url.toList = none) :
    download_sheet url http openOk t = ⟨-1, false, [], none, [], false, false⟩ := by
  unfold download_sheet get_google_sheet_download_link
  rw [h]

/-- C2 witness: the string "not a sheets url" does not match the pattern,
and `download_sheet` on it returns -1 having issued no request. -/
theorem invalid_url_fails_without_request_witness :
    download_sheet "not a sheets url" (fun _ => HttpOutcome.otherError) true 0 =
      ⟨-1, false, [], none, [], false, false⟩ :=
  invalid_url_fails_without_request "not a sheets url"
    (fun _ => HttpOutcome.otherError) true 0 (by decide)

/-- C3: for every response with HTTP status 200 whose content type is
neither HTML nor JSON, `download_sheet` writes the staging file with
exactly the response body as its bytes, invokes the callback with that
file's path, and returns the success code 0 with no thread. -/
theorem binary_200_staged_and_success (url durl ct : String) (body : Bytes)
    (http : String → HttpOutcome) (openOk : Bool) (t : Nat)
    (hres : get_google_sheet_download_link url = some durl)
    (hhttp : http durl = .ok 200 ct body)
    (hhtml : containsSubstr "text/html" ct = false)
    (hjson : containsSubstr "application/json" ct = false) :
    download_sheet url http openOk t =
      ⟨0, false, [durl], some (stagedPath t, body), [stagedPath t], false, false⟩ := by
  unfold download_sheet
  rw [hres]
  simp [hhttp, hhtml, hjson]

/-- C3 witness: a 200 response with an xlsx content type and body
`[80, 75, 3, 4]` is staged byte-for-byte and reported as success 0. -/
theorem binary_200_staged_and_success_witness :
    download_sheet "https://docs.google.com/spreadsheets/d/abc123/edit"
        (fun _ => HttpOutcome.ok 200 "application/vnd.ms-excel" [80, 75, 3, 4])
        true 7 =
      ⟨0, false, ["https://docs.google.com/spreadsheets/d/abc123/export?format=xlsx"],
        some (stagedPath 7, [80, 75, 3, 4]), [stagedPath 7], false, false⟩ :=
  binary_200_staged_and_success
    "https://docs.google.com/spreadsheets/d/abc123/edit"
    "https://docs.google.com/spreadsheets/d/abc123/export?format=xlsx"
    "application/vnd.ms-excel" [80, 75, 3, 4] _ true 7
    (by decide) rfl (by decide) (by decide)

/-- C4: a 401 response, or any response whose content type contains
`text/html` or `application/json`, always takes the authentication-fallback
branch: the baseline is captured and a browser launch attempted; when the
browser opens, the watcher thread is returned with status 1; when it does
not, the browser-launch code -2 is returned.  In particular no hard
download-failure code (-3, -4, -5, -6) and no bogus success is ever
reported for such a response, and no file is written. -/
theorem auth_wall_routes_to_fallback (url durl ct : String) (status : Nat)
    (body : Bytes) (http : String → HttpOutcome) (openOk : Bool) (t : Nat)
    (hres : get_google_sheet_download_link url = some durl)
    (hhttp : http durl = .ok status ct body)
    (hauth : status = 401 ∨ containsSubstr "text/html" ct = true
      ∨ containsSubstr "application/json" ct = true) :
    download_sheet url http openOk t =
      ⟨if openOk then 1 else -2, openOk, [durl], none, [], true, true⟩ := by
  unfold download_sheet
  rw [hres]
  have hcond : (status == 401
      || (containsSubstr "text/html" ct || containsSubstr "application/json" ct))
      = true := by
    rcases hauth with h | h | h <;> simp [h]
  simp only [hhttp, hcond, if_true]
  cases openOk <;> simp

/-- C4 witness: a 200 response carrying `text/html` (a login page) routes
to the fallback with status 1 and a live watcher thread. -/
theorem auth_wall_routes_to_fallback_witness :
    download_sheet "https://docs.google.com/spreadsheets/d/abc123/edit"
        (fun _ => HttpOutcome.ok 200 "text/html; charset=utf-8" [60]) true 0 =
      ⟨1, true, ["https://docs.google.com/spreadsheets/d/abc123/export?format=xlsx"],
        none, [], true, true⟩ :=
  auth_wall_routes_to_fallback
    "https://docs.google.com/spreadsheets/d/abc123/edit"
    "https://docs.google.com/spreadsheets/d/abc123/export?format=xlsx"
    "text/html; charset=utf-8" 200 [60] _ true 0
    (by decide) rfl (Or.inr (Or.inl (by decide)))

/-- C5 (code bug evidence): a request that raises `requests.Timeout` is
answered with code -4, not -5, because the `except requests.RequestException`
clause precedes `except requests.Timeout` and `Timeout` is a subclass of
`RequestException`; the -5 branch is dead code.  The UI table nevertheless
maps -4 and -5 to the two distinct messages the spec describes. -/
theorem timeout_answered_with_network_error_code :
    (download_sheet "https://docs.google.com/spreadsheets/d/abc123/edit"
        (fun _ => HttpOutcome.timeout) true 0).status = -4
    ∧ (∀ e : HttpOutcome, excCode e ≠ -5)
    ∧ error_messages (-4) = some "Network error during download"
    ∧ error_messages (-5) = some "Timeout during download" := by
  refine ⟨by decide, ?_, by decide, by decide⟩
  intro e
  cases e <;> simp [excCode, isRequestException, isTimeoutExc]

/-- C10: the thread component of the pair returned by `download_sheet` is
non-None exactly when the status code is 1 (manual download in progress);
every other code is paired with None. -/
theorem thread_returned_iff_manual_download (url : String)
    (http : String → HttpOutcome) (openOk : Bool) (t : Nat) :
    (download_sheet url http openOk t).threadReturned = true ↔
      (download_sheet url http openOk t).status = 1 := by
  unfold download_sheet
  cases hres : get_google_sheet_download_link url with
  | none => simp
  | some durl =>
    cases hhttp : http durl with
    | ok status ct body =>
      simp only [hhttp]
      by_cases h1 : (status == 401
          || (containsSubstr "text/html" ct
            || containsSubstr "application/json" ct)) = true
      · simp only [h1, if_true]
        cases openOk <;> simp
      · rw [Bool.not_eq_true] at h1
        simp only [h1, Bool.false_eq_true, if_false]
        by_cases h2 : (status == 200) = true
        · simp [h2]
        · rw [Bool.not_eq_true] at h2
          simp [h2]
    | connError => simp [hhttp, excCode, isRequestException, isTimeoutExc]
    | timeout => simp [hhttp, excCode, isRequestException, isTimeoutExc]
    | otherError => simp [hhttp, excCode, isRequestException, isTimeoutExc]

/-- C7: whenever the container name `n8n-custom` occurs in the
`docker ps` output, export returns failure and writes no archive. -/
theorem export_refused_while_container_running (ps : String)
    (dataDirPresent : Bool) (st : FsState)
    (h : containsSubstr "n8n-custom" ps = true) :
    export_n8n_data (some ps) dataDirPresent st = (false, none) := by
  unfold export_n8n_data is_docker_running
  simp [h]

/-- C7 witness: with `n8n-custom` listed in the process output, export of a
one-file data directory is refused and no archive is created. -/
theorem export_refused_while_container_running_witness :
    export_n8n_data (some "n8n-custom") true
        ⟨[("database.sqlite".toList, [1, 2])], none⟩ = (false, none) :=
  export_refused_while_container_running "n8n-custom" true
    ⟨[("database.sqlite".toList, [1, 2])], none⟩ (by decide)

/-- C8: a chosen file that is not a well-formed zip archive makes import
return failure with the destination state — every data-directory file and
the environment file — exactly as it was. -/
theorem import_rejects_non_zip (ps : Option String) (st : FsState) :
    import_n8n_data ps .notZip st = (false, st) := by
  unfold import_n8n_data
  split <;> rfl

/-- C6: in every watch execution the callback fires at most once; whenever
it fires, the argument was observed as the newest spreadsheet file and
differs from the captured baseline; and when no observation before the
timeout differs from the baseline (other than a vanished, `None`, latest
file), the watch ends with no callback invocation at all. -/
theorem watchRun_cons (baseline current : Option Name)
    (rest : List (Option Name)) :
    watchRun baseline (current :: rest) =
      if current ≠ baseline then
        (match current with
         | some f => [f]
         | none => watchRun baseline rest)
      else watchRun baseline rest := rfl

/-- C6: in every watch execution the callback fires at most once; whenever
it fires, the argument was observed as the newest spreadsheet file and
differs from the captured baseline; and when no observation before the
timeout differs from the baseline (other than a vanished, `None`, latest
file), the watch ends with no callback invocation at all. -/
theorem watcher_callback_discipline (baseline : Option Name)
    (obs : List (Option Name)) :
    (watchRun baseline obs).length ≤ 1
    ∧ (∀ f ∈ watchRun baseline obs, some f ∈ obs ∧ some f ≠ baseline)
    ∧ ((∀ o ∈ obs, o ≠ baseline → o = none) → watchRun baseline obs = []) := by
  induction obs with
  | nil => simp [watchRun]
  | cons current rest ih =>
    obtain ⟨ih1, ih2, ih3⟩ := ih
    rw [watchRun_cons]
    by_cases h : current = baseline
    · rw [if_neg (not_not_intro h)]
      refine ⟨ih1, ?_, ?_⟩
      · intro g hg
        exact ⟨List.mem_cons_of_mem _ (ih2 g hg).1, (ih2 g hg).2⟩
      · intro hall
        exact ih3 fun o ho => hall o (List.mem_cons_of_mem _ ho)
    · rw [if_pos h]
      cases current with
      | some f =>
        refine ⟨by simp, ?_, ?_⟩
        · intro g hg
          rw [List.mem_singleton] at hg
          subst hg
          exact ⟨List.mem_cons_self _ _, h⟩
        · intro hall
          exact absurd (hall (some f) (List.mem_cons_self _ _) h) (by simp)
      | none =>
        refine ⟨ih1, ?_, ?_⟩
        · intro g hg
          exact ⟨List.mem_cons_of_mem _ (ih2 g hg).1, (ih2 g hg).2⟩
        · intro hall
          exact ih3 fun o ho => hall o (List.mem_cons_of_mem _ ho)

/-- A zip member that neither lies under `n8n-data/` nor is the literal
`.env` entry is skipped by the extraction loop: the destination state is
untouched. -/
theorem importMember_skips_unmatched (st : FsState) (m : Name × Bytes)
    (h : (dataRoot.isPrefixOf m.1 || m.1 == envEntryName) = false) :
    importMember st m = st := by
  rw [Bool.or_eq_false_iff] at h
  unfold importMember
  simp [h.1, h.2]

/-- Extraction of a member list equals extraction of just its members that
match one of the two recognised shapes. -/
theorem foldl_importMember_filter (members : List (Name × Bytes))
    (st : FsState) :
    members.foldl importMember st =
      (members.filter
        (fun m => dataRoot.isPrefixOf m.1 || m.1 == envEntryName)).foldl
        importMember st := by
  induction members generalizing st with
  | nil => rfl
  | cons m rest ih =>
    rw [List.foldl_cons, List.filter_cons]
    by_cases h : (dataRoot.isPrefixOf m.1 || m.1 == envEntryName) = true
    · rw [if_pos h, List.foldl_cons]
      exact ih _
    · rw [Bool.not_eq_true] at h
      rw [importMember_skips_unmatched st m h, if_neg (by simp [h])]
      exact ih _

/-- C9: for every archive, import behaves exactly as if only the members
whose name starts with `n8n-data/` (extracted under the data directory)
or equals `.env` (extracted to the environment-file location) were
present — every other member causes no filesystem write. -/
theorem import_writes_only_recognised_members (ps : Option String)
    (members : List (Name × Bytes)) (st : FsState) :
    import_n8n_data ps (.zip members) st =
      import_n8n_data ps
        (.zip (members.filter
          (fun m => dataRoot.isPrefixOf m.1 || m.1 == envEntryName))) st := by
  unfold import_n8n_data
  cases is_docker_running ps with
  | true => rfl
  | false => simp [foldl_importMember_filter]

/-- The archive root `n8n-data/` is a prefix of every archived data entry
name. -/
theorem dataRoot_prefix_of_archived (p : Name) :
    dataRoot.isPrefixOf (dataRoot ++ p) = true := by
  rw [ List.isPrefixOf_iff_prefix]
  exact List.prefix_append _ _

/-- The last character of an archived data entry name is the last character
of the relative path (the path being nonempty). -/
theorem getLast?_of_archived (p : Name) (h : p ≠ []) :
    (dataRoot ++ p).getLast? = p.getLast? := by
  rw [List.getLast?_append]
  cases hp : p.getLast? with
  | none => exact absurd (List.getLast?_eq_none_iff.mp hp) h
  | some a => rfl

/-- Writing to a path not present in the store appends the new file. -/
theorem store_write_fresh (store : List (Name × Bytes)) (p : Name) (b : Bytes)
    (h : ∀ e ∈ store, e.1 ≠ p) :
    store_write store p b = store ++ [(p, b)] := by
  unfold store_write
  have hany : store.any (fun e => e.1 == p) = false := by
    rw [List.any_eq_false]
    intro e he
    simp [h e he]
  rw [hany]
  simp

/-- Extracting an archived data entry (nonempty relative path, not ending
in a slash) writes exactly that file into the data directory. -/
theorem importMember_data_entry (st : FsState) (p : Name) (b : Bytes)
    (hne : p ≠ []) (hslash : p.getLast? ≠ some '/') :
    importMember st (dataRoot ++ p, b) =
      { st with dataDir := store_write st.dataDir p b } := by
  unfold importMember
  have h2 : ((dataRoot ++ p).getLast? == some '/') = false := by
    rw [getLast?_of_archived p hne]
    exact beq_eq_false_iff_ne.mpr hslash
  rw [dataRoot_prefix_of_archived, h2]
  simp [List.drop_left]

/-- Extracting the literal `.env` entry writes the environment file and
touches nothing else. -/
theorem importMember_env_entry (st : FsState) (e : Bytes) :
    importMember st (envEntryName, e) = { st with envFile := some e } := by
  unfold importMember
  have h1 : dataRoot.isPrefixOf envEntryName = false := by decide
  rw [h1]
  simp

/-- Extracting a list of archived data entries with distinct, well-formed
relative paths, none already present, appends exactly those files to the
data directory and leaves the environment file alone. -/
theorem import_archived_data (files : List (Name × Bytes)) (st : FsState)
    (hwf : ∀ fb ∈ files, fb.1 ≠ [] ∧ fb.1.getLast? ≠ some '/')
    (hnodup : (files.map Prod.fst).Nodup)
    (hfresh : ∀ fb ∈ files, ∀ e ∈ st.dataDir, e.1 ≠ fb.1) :
    (files.map (fun fb => (dataRoot ++ fb.1, fb.2))).foldl importMember st =
      ⟨st.dataDir ++ files, st.envFile⟩ := by
  induction files generalizing st with
  | nil => simp
  | cons fb rest ih =>
    obtain ⟨p, b⟩ := fb
    have hw := hwf (p, b) (List.mem_cons_self _ _)
    rw [List.map_cons] at hnodup
    obtain ⟨hpnot, hnodup2⟩ := List.nodup_cons.mp hnodup
    rw [List.map_cons, List.foldl_cons,
      importMember_data_entry st p b hw.1 hw.2,
      store_write_fresh st.dataDir p b
        (fun e he => hfresh (p, b) (List.mem_cons_self _ _) e he),
      ih ⟨st.dataDir ++ [(p, b)], st.envFile⟩
        (fun fb hfb => hwf fb (List.mem_cons_of_mem _ hfb)) hnodup2 ?_]
    · simp
    · intro fb hfb e he
      rcases List.mem_append.mp he with he | he
      · exact hfresh fb (List.mem_cons_of_mem _ hfb) e he
      · rw [List.mem_singleton] at he
        subst he
        intro heq
        exact hpnot (heq ▸ List.mem_map_of_mem Prod.fst hfb)

/-- Importing an archive produced by the export layout into an empty
destination writes exactly the archived files and environment file. -/
theorem import_buildArchive (files : List (Name × Bytes)) (env : Option Bytes)
    (hwf : ∀ fb ∈ files, fb.1 ≠ [] ∧ fb.1.getLast? ≠ some '/')
    (hnodup : (files.map Prod.fst).Nodup) :
    import_n8n_data none (.zip (buildArchive files env)) ⟨[], none⟩ =
      (true, ⟨files, env⟩) := by
  unfold import_n8n_data
  simp only [is_docker_running, Bool.false_eq_true, if_false, Prod.mk.injEq,
    true_and]
  have hfresh : ∀ fb ∈ files, ∀ e ∈ (FsState.mk [] none).dataDir,
      e.1 ≠ fb.1 :=
    fun fb _ e he => absurd he (List.not_mem_nil e)
  cases env with
  | none =>
    unfold buildArchive
    rw [List.append_nil,
      import_archived_data files ⟨[], none⟩ hwf hnodup hfresh]
    simp
  | some e =>
    unfold buildArchive
    rw [List.foldl_append,
      import_archived_data files ⟨[], none⟩ hwf hnodup hfresh,
      List.foldl_cons, List.foldl_nil, importMember_env_entry]
    simp

/-- C1 (amended): for every well-formed data directory (distinct relative
paths, none empty or slash-terminated) whose export succeeds, importing the
produced archive into an empty destination reproduces exactly the exported
subset of the directory — every file except the `.first_run_done` marker
and files under a `nodes` component, byte for byte and in order — and
round-trips the environment file. -/
theorem export_import_roundtrip (d : List (Name × Bytes)) (env : Option Bytes)
    (archive : List (Name × Bytes))
    (hwf : ∀ fb ∈ d, fb.1 ≠ [] ∧ fb.1.getLast? ≠ some '/')
    (hnodup : (d.map Prod.fst).Nodup)
    (hexp : export_n8n_data none true ⟨d, env⟩ = (true, some archive)) :
    import_n8n_data none (.zip archive) ⟨[], none⟩ =
      (true, ⟨d.filter (fun fb => exportIncluded fb.1), env⟩) := by
  unfold export_n8n_data at hexp
  simp only [is_docker_running, Bool.false_eq_true, if_false, Bool.not_true,
    Bool.not_false, Bool.true_eq_false] at hexp
  split at hexp
  all_goals try split at hexp
  all_goals first
  | (simp only [Prod.mk.injEq, Option.some.injEq, true_and] at hexp
     subst hexp
     exact import_buildArchive _ env
       (fun fb hfb => hwf fb (List.mem_filter.mp hfb).1)
       (List.Nodup.sublist (List.Sublist.map Prod.fst (List.filter_sublist d))
         hnodup))
  | simp at hexp

/-- C1 counterexample: the round trip is not exact on every data directory.
On a directory holding the `.first_run_done` marker next to one data file,
export succeeds but the marker is excluded from the archive, so importing
into an empty destination does not reproduce the original file set. -/
theorem export_import_roundtrip_counterexample :
    (export_n8n_data none true
        ⟨[(".first_run_done".toList, [1]), ("database.sqlite".toList, [2])],
          none⟩).1 = true
    ∧ (export_n8n_data none true
        ⟨[(".first_run_done".toList, [1]), ("database.sqlite".toList, [2])],
          none⟩).2.map
        (fun a => (import_n8n_data none (.zip a) ⟨[], none⟩).2) ≠
      some ⟨[(".first_run_done".toList, [1]), ("database.sqlite".toList, [2])],
        none⟩ := by
  decide

/-- C1 witness: a four-file directory with a marker file and a `nodes`
plugin file round-trips to exactly its two exported files plus the
environment file. -/
theorem export_import_roundtrip_witness :
    import_n8n_data none
        (.zip [("n8n-data/workflows/a.json".toList, [1, 2]),
          ("n8n-data/database.sqlite".toList, [5, 6]),
          (".env".toList, [7])]) ⟨[], none⟩ =
      (true,
        ⟨List.filter (fun fb => exportIncluded fb.1)
            [("workflows/a.json".toList, [1, 2]),
              (".first_run_done".toList, [3]),
              ("nodes/custom.js".toList, [4]),
              ("database.sqlite".toList, [5, 6])],
          some [7]⟩) :=
  export_import_roundtrip
    [("workflows/a.json".toList, [1, 2]), (".first_run_done".toList, [3]),
      ("nodes/custom.js".toList, [4]), ("database.sqlite".toList, [5, 6])]
    (some [7])
    [("n8n-data/workflows/a.json".toList, [1, 2]),
      ("n8n-data/database.sqlite".toList, [5, 6]), (".env".toList, [7])]
    (by decide) (by decide) (by decide)
